import Mathlib

/-!
Verification development for the ScaleTicketPro repository.

The repository is a TypeScript application that extracts fields (invoice id,
net weight, emission date, license plate) from fiscal XML documents, picks a
vehicle, and issues a weighbridge ticket with a randomized issue timestamp and
a randomized, bounded gross weight.

This file gives a shallow embedding of the relevant code:
  - `src/services/xmlService.ts` (`parseInvoiceXml` and its helpers),
  - the app handlers in `src/types.ts` (`handleFileUpload` auto-selection and
    `handleIssueTicket` date/weight computation),
  - `src/services/mockFirestore.ts` (`saveTicket`),
  - `src/constants.ts` (`MOCK_TRUCKS`).

JavaScript platform builtins that the code relies on (`String.prototype.trim`,
`toUpperCase`, `parseFloat`, the two literal regexes, `Date` parsing and
calendar arithmetic, `Math.round`) are modelled by executable Lean functions
over `List Char`, `ℚ` and a calendar-field record.  Machine floating point is
modelled by `ℚ`; the properties proved here (clamping, interval bounds,
branch selection) are insensitive to that substitution at the inputs involved.
-/

namespace ScaleTicketPro

/-! ### Character and string utilities (models of JS string builtins) -/

/-- Whitespace as trimmed by `String.prototype.trim` (ASCII subset). -/
def isWsChar (c : Char) : Bool :=
  c = ' ' || c = '\t' || c = '\n' || c = '\r'

/-- Decimal digit, the `\d` character class of the JS regexes. -/
def isDigitChar (c : Char) : Bool :=
  '0' ≤ c && c ≤ '9'

/-- Uppercase ASCII letter, the `[A-Z]` character class. -/
def isUpperChar (c : Char) : Bool :=
  'A' ≤ c && c ≤ 'Z'

/-- ASCII uppercasing of one character, as `toUpperCase` does on ASCII. -/
def upChar (c : Char) : Char :=
  if 'a' ≤ c ∧ c ≤ 'z' then Char.ofNat (c.toNat - 32) else c

/-- Models `String.prototype.toUpperCase` on the ASCII strings this app uses. -/
def upStr (s : String) : String :=
  ⟨s.data.map upChar⟩

/-- Models `String.prototype.trim` (ASCII whitespace). -/
def trimStr (s : String) : String :=
  ⟨((s.data.dropWhile isWsChar).reverse.dropWhile isWsChar).reverse⟩

/-- Split a character list at every occurrence of `sep`, as `split(sep)`. -/
def splitOnCharL (sep : Char) : List Char → List (List Char)
  | [] => [[]]
  | c :: rest =>
    let r := splitOnCharL sep rest
    if c = sep then [] :: r
    else match r with
      | [] => [[c]]
      | g :: gs => (c :: g) :: gs

/-- Models `String.prototype.padStart(2, "0")` applied to a number's digits. -/
def padTwo (n : ℕ) : String :=
  if (toString n).length < 2 then "0" ++ toString n else toString n

/-- Models `String.prototype.slice(-6)`: the last six characters. -/
def takeRightStr (s : String) (n : ℕ) : String :=
  ⟨((s.data.reverse.take n).reverse)⟩

/-- Does `pat` occur as a prefix of `l`? -/
def hasPrefixL : List Char → List Char → Bool
  | [], _ => true
  | _ :: _, [] => false
  | p :: ps, c :: cs => p = c && hasPrefixL ps cs

/-- Does `pat` occur as a contiguous sublist of `l`?  Models `includes`. -/
def containsL (pat : List Char) : List Char → Bool
  | [] => pat.isEmpty
  | c :: rest => hasPrefixL pat (c :: rest) || containsL pat rest

/-- Models `String.prototype.includes`. -/
def containsSubstrStr (s pat : String) : Bool :=
  containsL pat.data s.data

/-- Value of a list of decimal digit characters. -/
def digitsToNat (ds : List Char) : ℕ :=
  ds.foldl (fun a c => a * 10 + (c.toNat - 48)) 0

/-- Models the JS builtin `parseFloat` for the decimal notations this app
feeds it (optional sign, integer digits, optional fractional digits; exponent
notation and `Infinity` do not occur in the repository's inputs).  `none`
models the `NaN` outcome. -/
def jsParseFloat (s : String) : Option ℚ :=
  let l := s.data.dropWhile isWsChar
  let signed : Bool × List Char :=
    match l with
    | '-' :: rest => (true, rest)
    | '+' :: rest => (false, rest)
    | _ => (false, l)
  let intDigits := signed.2.takeWhile isDigitChar
  let afterInt := signed.2.dropWhile isDigitChar
  let fracDigits : List Char :=
    match afterInt with
    | '.' :: rest => rest.takeWhile isDigitChar
    | _ => []
  if intDigits.isEmpty && fracDigits.isEmpty then none
  else
    let mag : ℚ :=
      (digitsToNat intDigits : ℚ) + (digitsToNat fracDigits : ℚ) / (10 : ℚ) ^ fracDigits.length
    some (if signed.1 then -mag else mag)

/-- JS truthiness of a nullable string: `null`/`undefined` and `""` are falsy. -/
def optTruthy : Option String → Bool
  | none => false
  | some s => !(s == "")

/-! ### XML document model

The DOM tree produced by `DOMParser.parseFromString`.  An element has a tag
name, attributes and an ordered list of child nodes; text nodes carry the
character data.  `XmlList` is a mutual copy of `List XmlNode` so that all
traversals are structural recursions (and hence compute inside the kernel). -/

mutual
inductive XmlNode where
  | text (s : String)
  | elem (tag : String) (attrs : List (String × String)) (children : XmlList)
inductive XmlList where
  | nil
  | cons (head : XmlNode) (tail : XmlList)
end

/-- Build an `XmlList` from an ordinary list. -/
def xmlListOf : List XmlNode → XmlList
  | [] => .nil
  | n :: ns => .cons n (xmlListOf ns)

/-- Element constructor with list-literal children. -/
def el (tag : String) (attrs : List (String × String)) (cs : List XmlNode) : XmlNode :=
  .elem tag attrs (xmlListOf cs)

/-- Text node constructor. -/
def txt (s : String) : XmlNode :=
  .text s

mutual
/-- `Node.textContent`: concatenation of all descendant text, in order. -/
def textContent : XmlNode → String
  | .text s => s
  | .elem _ _ cs => textContentList cs
def textContentList : XmlList → String
  | .nil => ""
  | .cons c cs => textContent c ++ textContentList cs
end

mutual
/-- Pre-order enumeration (self included) of the elements named `tag`. -/
def preByTag (tag : String) : XmlNode → List XmlNode
  | .text _ => []
  | .elem t a cs =>
    (if t = tag then [XmlNode.elem t a cs] else []) ++ preByTagList tag cs
/-- Pre-order enumeration over a node list, left to right. -/
def preByTagList (tag : String) : XmlList → List XmlNode
  | .nil => []
  | .cons c cs => preByTag tag c ++ preByTagList tag cs
end

/-- `getElementsByTagName`: all proper descendants named `tag`, in document
order (the receiver itself is excluded, as in the DOM). -/
def elemsByTag (tag : String) : XmlNode → List XmlNode
  | .text _ => []
  | .elem _ _ cs => preByTagList tag cs

/-- The direct child nodes of a node, as an ordinary list. -/
def childrenOf : XmlNode → List XmlNode
  | .text _ => []
  | .elem _ _ cs => listOfXml cs
where
  listOfXml : XmlList → List XmlNode
    | .nil => []
    | .cons c cs => c :: listOfXml cs

/-- `Element.getAttribute`: the value of the named attribute, or null. -/
def getAttr (n : XmlNode) (name : String) : Option String :=
  match n with
  | .text _ => none
  | .elem _ attrs _ => (attrs.find? (fun p => p.1 == name)).map (fun p => p.2)

/-- `n.getElementsByTagName(tag)[0]?.textContent`: text of the first matching
descendant, or `none` when there is no match. -/
def firstElemText (n : XmlNode) (tag : String) : Option String :=
  ((elemsByTag tag n).head?).map textContent

/-! ### Calendar model (JS `Date` local calendar fields)

A `DateTime` records the local calendar fields that `getFullYear`,
`getMonth()+1`, `getDate`, `getHours`, `getMinutes`, `getSeconds` and
`getMilliseconds` expose.  Epoch conversion (`getTime`) depends on the host
time zone and is not modelled; every property proved below is a property of
these calendar fields, which are exactly what the code manipulates. -/

structure DateTime where
  year : ℕ
  month : ℕ
  day : ℕ
  hour : ℕ
  minute : ℕ
  second : ℕ
  ms : ℕ
deriving DecidableEq, Repr

/-- Gregorian leap-year rule, as implemented by the JS `Date` calendar. -/
def isLeapYear (y : ℕ) : Bool :=
  (y % 4 == 0 && y % 100 != 0) || y % 400 == 0

/-- Number of days in a month of the Gregorian calendar. -/
def daysInMonth (y m : ℕ) : ℕ :=
  if m = 2 then (if isLeapYear y then 29 else 28)
  else if m = 4 ∨ m = 6 ∨ m = 9 ∨ m = 11 then 30
  else 31

/-- `d.setDate(d.getDate() + 1)`: advance one calendar day, rolling over
month and year boundaries. -/
def addOneDay (d : DateTime) : DateTime :=
  if d.day < daysInMonth d.year d.month then { d with day := d.day + 1 }
  else if d.month < 12 then { d with month := d.month + 1, day := 1 }
  else { d with year := d.year + 1, month := 1, day := 1 }

/-- `d.setHours(h, m, s, 0)` for `h < 24`: overwrite the time-of-day fields
and zero the milliseconds. -/
def setTimeHMS (d : DateTime) (h m s : ℕ) : DateTime :=
  { d with hour := h, minute := m, second := s, ms := 0 }

/-- Seconds since local midnight of the time-of-day portion. -/
def todSeconds (d : DateTime) : ℕ :=
  d.hour * 3600 + d.minute * 60 + d.second

/-- Parse `n` decimal digits from the front of a character list. -/
def takeDigits (n : ℕ) (l : List Char) : Option (ℕ × List Char) :=
  let ds := l.take n
  if ds.length = n && ds.all isDigitChar then some (digitsToNat ds, l.drop n)
  else none

/-- Models `new Date(string)` for the time-zone-free date or date-time
strings this application produces and consumes:
`YYYY-MM-DD`, optionally followed by `T` or a space and `HH:MM` or
`HH:MM:SS`.  Field ranges are validated as the ISO parser does; any other
string yields `none`, the model of an `Invalid Date`.  Time-zone suffixes do
not occur in the repository's data flow and are out of scope. -/
def jsDateParse (s : String) : Option DateTime :=
  match takeDigits 4 s.data with
  | none => none
  | some (y, r1) =>
    match r1 with
    | '-' :: r2 =>
      match takeDigits 2 r2 with
      | none => none
      | some (mo, r3) =>
        match r3 with
        | '-' :: r4 =>
          match takeDigits 2 r4 with
          | none => none
          | some (d, r5) =>
            let valid := 1 ≤ mo && mo ≤ 12 && 1 ≤ d && d ≤ daysInMonth y mo
            let date : DateTime := ⟨y, mo, d, 0, 0, 0, 0⟩
            match r5 with
            | [] => if valid then some date else none
            | sep :: r6 =>
              if sep = 'T' ∨ sep = ' ' then
                match takeDigits 2 r6 with
                | none => none
                | some (h, r7) =>
                  match r7 with
                  | ':' :: r8 =>
                    match takeDigits 2 r8 with
                    | none => none
                    | some (mi, r9) =>
                      let validT := valid && h ≤ 23 && mi ≤ 59
                      match r9 with
                      | [] => if validT then some { date with hour := h, minute := mi } else none
                      | ':' :: r10 =>
                        match takeDigits 2 r10 with
                        | none => none
                        | some (sec, r11) =>
                          if r11 = [] && validT && sec ≤ 59 then
                            some { date with hour := h, minute := mi, second := sec }
                          else none
                      | _ => none
                  | _ => none
              else none
        | _ => none
    | _ => none

/-! ### `src/services/xmlService.ts` — field extraction -/

/-- The `getTagValue` helper of `parseInvoiceXml`: walk the candidate tags in
order; the first tag whose element collection is non-empty *and* whose first
element has truthy (non-empty) `textContent` yields that text, trimmed. -/
def getTagValue (doc : XmlNode) : List String → Option String
  | [] => none
  | tag :: rest =>
    match (elemsByTag tag doc).head? with
    | some e => if textContent e ≠ "" then some (trimStr (textContent e)) else getTagValue doc rest
    | none => getTagValue doc rest

/-- One descent step per path segment: `current.getElementsByTagName(part)`
and move to the first hit — the first *descendant* (not child) so named. -/
def descendPath : XmlNode → List String → Option XmlNode
  | cur, [] => some cur
  | cur, p :: rest =>
    match (elemsByTag p cur).head? with
    | none => none
    | some e => descendPath e rest

/-- The `getTagValueByPath` helper: split the path on `/`, drop empty
segments, descend, and return the final element's trimmed text (`|| null`
turns an empty trimmed text into null). -/
def getTagValueByPath (doc : XmlNode) (path : String) : Option String :=
  let parts := ((splitOnCharL '/' path.data).map (fun l => (⟨l⟩ : String))).filter
    (fun p => p.length > 0)
  match descendPath doc parts with
  | none => none
  | some e =>
    let t := trimStr (textContent e)
    if t ≠ "" then some t else none

/-- Invoice-id candidate tags, in source order. -/
def idTags : List String := ["cCT", "nCT", "InvoiceID", "NF", "CT", "nNF", "id", "number"]

/-- Emission-date candidate tags for the generic fallback, in source order. -/
def dateTags : List String := ["dhEmi", "dEmi", "IssueDate", "Date"]

/-- Net-weight fallback candidate tags, in source order. -/
def weightTags : List String :=
  ["PesoReal", "pesoReal", "PESO_REAL", "NetWeight", "Weight", "pesoL", "Net", "qCarga"]

/-- The raw emission-date value: strict path `/cteProc/CTe/infCte/ide/dhEmi`,
then strict path `/CTe/infCte/ide/dhEmi`, then the generic tag search. -/
def invoiceDateRawOf (doc : XmlNode) : Option String :=
  match getTagValueByPath doc "/cteProc/CTe/infCte/ide/dhEmi" with
  | some v => some v
  | none =>
    match getTagValueByPath doc "/CTe/infCte/ide/dhEmi" with
    | some v => some v
    | none => getTagValue doc dateTags

/-- `YYYY-MM-DD HH:MM` rendering of a parsed date (year unpadded, the other
fields through `padStart(2, "0")`), exactly as the template literal does. -/
def fmtYMDHM (d : DateTime) : String :=
  toString d.year ++ "-" ++ padTwo d.month ++ "-" ++ padTwo d.day ++ " " ++
    padTwo d.hour ++ ":" ++ padTwo d.minute

/-- Date formatting step of `parseInvoiceXml`: reformat the raw value to
`YYYY-MM-DD HH:MM` when it parses as a date-time, else pass it through. -/
def formatInvoiceDate (raw : String) : String :=
  match jsDateParse raw with
  | some d => fmtYMDHM d
  | none => raw

/-- The formatted `invoiceDate` (null propagates; a falsy raw stays null). -/
def invoiceDateOf (doc : XmlNode) : Option String :=
  let raw := invoiceDateRawOf doc
  if optTruthy raw then some (formatInvoiceDate (raw.getD "")) else none

/-- Match of `/(\d{4})[-.](\d{2})[-.](\d{2})/` anchored at the list head,
returning the three capture groups. -/
def yPatAt (l : List Char) : Option (String × String × String) :=
  match l with
  | y1 :: y2 :: y3 :: y4 :: s1 :: m1 :: m2 :: s2 :: d1 :: d2 :: _ =>
    if isDigitChar y1 && isDigitChar y2 && isDigitChar y3 && isDigitChar y4 &&
        (s1 = '-' || s1 = '.') && isDigitChar m1 && isDigitChar m2 &&
        (s2 = '-' || s2 = '.') && isDigitChar d1 && isDigitChar d2 then
      some (⟨[y1, y2, y3, y4]⟩, ⟨[m1, m2]⟩, ⟨[d1, d2]⟩)
    else none
  | _ => none

/-- Leftmost match of the year-first filename pattern (the JS regex search:
try every start position, left to right). -/
def searchY : List Char → Option (String × String × String)
  | [] => none
  | c :: rest =>
    match yPatAt (c :: rest) with
    | some g => some g
    | none => searchY rest

/-- Match of `/(\d{2})[-.](\d{2})[-.](\d{4})/` anchored at the list head,
returning the three capture groups (day, month, year). -/
def dPatAt (l : List Char) : Option (String × String × String) :=
  match l with
  | d1 :: d2 :: s1 :: m1 :: m2 :: s2 :: y1 :: y2 :: y3 :: y4 :: _ =>
    if isDigitChar d1 && isDigitChar d2 && (s1 = '-' || s1 = '.') &&
        isDigitChar m1 && isDigitChar m2 && (s2 = '-' || s2 = '.') &&
        isDigitChar y1 && isDigitChar y2 && isDigitChar y3 && isDigitChar y4 then
      some (⟨[d1, d2]⟩, ⟨[m1, m2]⟩, ⟨[y1, y2, y3, y4]⟩)
    else none
  | _ => none

/-- Leftmost match of the day-first filename pattern. -/
def searchD : List Char → Option (String × String × String)
  | [] => none
  | c :: rest =>
    match dPatAt (c :: rest) with
    | some g => some g
    | none => searchD rest

/-- Filename-date extraction: the year-first pattern has priority; a match of
either pattern yields `"YYYY-MM-DD 12:00"`; otherwise null. -/
def filenameDateOf (filename : String) : Option String :=
  match searchY filename.data with
  | some (y, m, d) => some (y ++ "-" ++ m ++ "-" ++ d ++ " 12:00")
  | none =>
    match searchD filename.data with
    | some (d, m, y) => some (y ++ "-" ++ m ++ "-" ++ d ++ " 12:00")
    | none => none

/-- `infQ.getElementsByTagName("tpMed")[0]?.textContent?.trim().toUpperCase()`. -/
def tpMedNorm (item : XmlNode) : Option String :=
  (firstElemText item "tpMed").map (fun s => upStr (trimStr s))

/-- `infQ.getElementsByTagName("qCarga")[0]?.textContent?.trim()`. -/
def qCargaTrim (item : XmlNode) : Option String :=
  (firstElemText item "qCarga").map trimStr

/-- The loop guard of weight strategy 1:
`tpMed === "PESO REAL" && qCarga` (the second conjunct is JS truthiness, so
a present but empty-after-trim `qCarga` fails the guard). -/
def pesoRealHit (item : XmlNode) : Bool :=
  (tpMedNorm item == some "PESO REAL") && optTruthy (qCargaTrim item)

/-- Weight strategy 1: scan the `infQ` elements in document order and take the
`qCarga` text of the first one passing the guard (`break` on first hit). -/
def findPesoReal : List XmlNode → Option String
  | [] => none
  | item :: rest => if pesoRealHit item then qCargaTrim item else findPesoReal rest

/-- The extracted raw net-weight string: strategy 1 over the `infQ` list, and
the generic tag-list fallback when the result is still falsy. -/
def netWeightStringOf (doc : XmlNode) : Option String :=
  let s1 := findPesoReal (elemsByTag "infQ" doc)
  if optTruthy s1 then s1 else getTagValue doc weightTags

/-- Match of the plate regex `[A-Z]{3}[0-9][0-9A-Z][0-9]{2}` anchored at the
list head. -/
def plateAt (l : List Char) : Option String :=
  match l with
  | c0 :: c1 :: c2 :: c3 :: c4 :: c5 :: c6 :: _ =>
    if isUpperChar c0 && isUpperChar c1 && isUpperChar c2 && isDigitChar c3 &&
        (isDigitChar c4 || isUpperChar c4) && isDigitChar c5 && isDigitChar c6 then
      some ⟨[c0, c1, c2, c3, c4, c5, c6]⟩
    else none
  | _ => none

/-- Leftmost, unanchored search of the plate pattern, as `xTexto.match(...)`. -/
def plateSearchL : List Char → Option String
  | [] => none
  | c :: rest =>
    match plateAt (c :: rest) with
    | some m => some m
    | none => plateSearchL rest

/-- `String.prototype.match` with the plate regex: first match or null. -/
def jsMatchPlate (s : String) : Option String :=
  plateSearchL s.data

/-- Plate extraction loop body over the `ObsCont` elements: for each element
whose upper-cased `xCampo` attribute contains `"PLACA"`, search its first
`xTexto` text for the plate pattern and stop at the first match. -/
def findPlate : List XmlNode → Option String
  | [] => none
  | item :: rest =>
    let xCampo := upStr ((getAttr item "xCampo").getD "")
    if containsSubstrStr xCampo "PLACA" then
      match jsMatchPlate ((firstElemText item "xTexto").getD "") with
      | some m => some m
      | none => findPlate rest
    else findPlate rest

/-- The extracted license plate of a document. -/
def extractPlateOf (doc : XmlNode) : Option String :=
  findPlate (elemsByTag "ObsCont" doc)

/-- The extracted invoice id of a document. -/
def invoiceIdOf (doc : XmlNode) : Option String :=
  getTagValue doc idTags

/-- The `ParsingResult` interface of `src/types.ts`.  `none` models both the
JS `null` and an absent (`undefined`) field; for `netWeight` it also models
the `NaN` stored on one error path, a distinction no claim observes. -/
structure ParsingResult where
  invoiceId : Option String
  netWeight : Option ℚ
  invoiceDate : Option String
  extractedPlate : Option String
  filenameDate : Option String
  error : Option String
deriving DecidableEq, Repr

/-- The missing-field diagnostic strings pushed by `parseInvoiceXml`. -/
def missingMsgs (idOk weightOk : Bool) : List String :=
  (if idOk then [] else ["ID da Nota (tags buscadas: cCT, nCT, InvoiceID, NF...)"]) ++
    (if weightOk then []
     else ["Peso Líquido (tags buscadas: tpMed=\x27PESO REAL\x27, ou tags: PesoReal, pesoL...)"])

/-- `parseInvoiceXml` over an already-parsed document (the malformed-XML and
file-read failure branches precede everything modelled here and set only
`error`; no claim concerns them). -/
def parseInvoiceXml (doc : XmlNode) (filename : String) : ParsingResult :=
  let invoiceId := invoiceIdOf doc
  let invoiceDate := invoiceDateOf doc
  let filenameDate := filenameDateOf filename
  let netWeightString := netWeightStringOf doc
  let extractedPlate := extractPlateOf doc
  if optTruthy invoiceId && optTruthy netWeightString then
    match jsParseFloat (netWeightString.getD "") with
    | none =>
      { invoiceId := invoiceId, netWeight := none, invoiceDate := none,
        extractedPlate := none, filenameDate := none,
        error := some "Peso Líquido não é um número válido." }
    | some q =>
      { invoiceId := invoiceId, netWeight := some q, invoiceDate := invoiceDate,
        extractedPlate := extractedPlate, filenameDate := filenameDate, error := none }
  else
    { invoiceId := if optTruthy invoiceId then invoiceId else none,
      netWeight := if optTruthy netWeightString then jsParseFloat (netWeightString.getD "") else none,
      invoiceDate := if optTruthy invoiceDate then invoiceDate else none,
      extractedPlate := extractedPlate,
      filenameDate := filenameDate,
      error := some ("Dados obrigatórios faltando: " ++
        String.intercalate ", " (missingMsgs (optTruthy invoiceId) (optTruthy netWeightString))) }

/-! ### Claim-wording reference definitions

For the refinement-style claims the definitions below follow *the words of
the claim*, to be compared with the source-derived definitions above. -/

/-- Claim wording of C7's ordered candidate search: "the first candidate with
at least one matching element wins, yielding that match's first occurrence's
trimmed text content" — no truthiness condition on the text. -/
def getTagValueClaim (doc : XmlNode) : List String → Option String
  | [] => none
  | tag :: rest =>
    match (elemsByTag tag doc).head? with
    | some e => some (trimStr (textContent e))
    | none => getTagValueClaim doc rest

/-- First *child* element named `tag`, as C6's claim wording prescribes for
each strict-path step. -/
def childByTag (n : XmlNode) (tag : String) : Option XmlNode :=
  (childrenOf n).find? fun c =>
    match c with
    | .elem t _ _ => t == tag
    | .text _ => false

/-- Claim wording of C6's strict-path descent: "each step takes the first
child bearing the next path segment's tag name and the whole path fails if
any segment is absent". -/
def descendPathClaim : XmlNode → List String → Option XmlNode
  | cur, [] => some cur
  | cur, p :: rest =>
    match childByTag cur p with
    | none => none
    | some e => descendPathClaim e rest

/-- Claim wording of C6's raw-date extraction: the two child-based strict
paths in order, then the generic candidate-tag search. -/
def invoiceDateRawClaim (doc : XmlNode) : Option String :=
  match (descendPathClaim doc ["cteProc", "CTe", "infCte", "ide", "dhEmi"]).map
      (fun e => trimStr (textContent e)) with
  | some v => some v
  | none =>
    match (descendPathClaim doc ["CTe", "infCte", "ide", "dhEmi"]).map
        (fun e => trimStr (textContent e)) with
    | some v => some v
    | none => getTagValue doc dateTags

/-- Claim wording of C3's contextual strategy: "the first `infQ` whose
`tpMed` ... equals PESO REAL and whose `qCarga` child is *present* supplies
the raw weight string" — presence of the element, not non-emptiness of its
text. -/
def findPesoRealClaim : List XmlNode → Option String
  | [] => none
  | item :: rest =>
    if tpMedNorm item == some "PESO REAL" && ((elemsByTag "qCarga" item).head?).isSome then
      qCargaTrim item
    else findPesoRealClaim rest

/-- Claim wording of C3's full weight-string extraction: the generic fallback
runs "only if no such `infQ` matches". -/
def netWeightStringClaim (doc : XmlNode) : Option String :=
  match findPesoRealClaim (elemsByTag "infQ" doc) with
  | some s => some s
  | none => getTagValue doc weightTags

/-! ### `src/types.ts` — App handlers, and `src/constants.ts` -/

/-- The `Truck` interface of `src/types.ts`. -/
structure Truck where
  truckId : String
  plateNumber : String
  tareWeight : ℚ
  maxCapacity : ℚ
  driverName : Option String
deriving DecidableEq, Repr

/-- The `MOCK_TRUCKS` catalog of `src/constants.ts`. -/
def MOCK_TRUCKS : List Truck :=
  [⟨"TRK-STD-01", "TRUCK", 9960, 26000, some "Auto Select 1"⟩,
   ⟨"CRT-HVY-01", "CARRETA", 9900, 50000, some "Auto Select 2"⟩,
   ⟨"TRK-GEN-03", "GENERIC-01", 5000, 10000, some "Spare Driver"⟩]

/-- The target category label of `handleFileUpload`'s automatic vehicle
selection: `"TRUCK"` for `netWeight <= 15000`, else `"CARRETA"`. -/
def targetPlate (netWeight : ℚ) : String :=
  if netWeight ≤ 15000 then "TRUCK" else "CARRETA"

/-- `trucks.find(t => t.plateNumber === targetPlate)`. -/
def autoSelect (trucks : List Truck) (netWeight : ℚ) : Option Truck :=
  trucks.find? fun t => t.plateNumber == targetPlate netWeight

/-- The three pieces of component state that `handleFileUpload`'s
auto-selection block touches. -/
structure UploadState where
  selectedTruckId : Option String
  feedbackMessage : Option String
  uploadError : Option String
deriving DecidableEq, Repr

/-- State written by the auto-selection block for an extracted net weight:
on a catalog hit the truck is selected with an informational message; on a
miss only an informational fallback message is set.  `uploadError` is not
written on either branch. -/
def autoSelectState (trucks : List Truck) (netWeight : ℚ) : UploadState :=
  match autoSelect trucks netWeight with
  | some t =>
    ⟨some t.truckId,
     some ("Veículo selecionado automaticamente: " ++ targetPlate netWeight ++
       " (Baseado no peso " ++ toString netWeight ++ "kg)"),
     none⟩
  | none =>
    ⟨none,
     some "Não foi possível selecionar automaticamente o veículo para a categoria de peso.",
     none⟩

/-- `Math.round`: round half-up to the nearest integer. -/
def jsRound (x : ℚ) : ℤ :=
  ⌊x + 1 / 2⌋

/-- `0.998 + Math.random() * 0.004` for a raw uniform draw `u ∈ [0, 1)`. -/
def variationFactor (u : ℚ) : ℚ :=
  998 / 1000 + u * (4 / 1000)

/-- `Math.max(-20, Math.min(20, rawDelta))`. -/
def clampedDelta20 (rawDelta : ℚ) : ℚ :=
  max (-20) (min 20 rawDelta)

/-- The ticket's `grossWeightCalculated` as computed by `handleIssueTicket`:
simulated measured net weight (net weight plus the clamped ±0.2 % delta)
plus tare, rounded to the nearest integer. -/
def randomizedGrossWeight (netWeight tareWeight u : ℚ) : ℤ :=
  let rawDelta := netWeight * variationFactor u - netWeight
  let simulatedMeasuredNetWeight := netWeight + clampedDelta20 rawDelta
  jsRound (simulatedMeasuredNetWeight + tareWeight)

/-- `07:12:50` in seconds since midnight, as summed by `handleIssueTicket`. -/
def startTotalSeconds : ℕ := 7 * 3600 + 12 * 60 + 50

/-- `15:45:50` in seconds since midnight. -/
def endTotalSeconds : ℕ := 15 * 3600 + 45 * 60 + 50

/-- The issue date-time computed by `handleIssueTicket` from the current time
`now`, the extraction's `invoiceDate` string and a random seconds draw `r`:
the base is the parsed invoice date advanced by one calendar day when the
string is truthy and parses, else `now` unchanged; then the time of day is
overwritten with `r` split into hours, minutes and seconds (milliseconds
zeroed).  `issueTimestamp` is this date-time's epoch value; every claim-level
observable (date part, time of day) is a calendar field of this record. -/
def computeIssueDT (now : DateTime) (invoiceDate : Option String) (r : ℕ) : DateTime :=
  let ticketDate :=
    if optTruthy invoiceDate then
      match jsDateParse (invoiceDate.getD "") with
      | some d => addOneDay d
      | none => now
    else now
  setTimeHMS ticketDate (r / 3600) (r % 3600 / 60) (r % 60)

/-! ### `src/services/mockFirestore.ts` -/

/-- The `TicketStatus` union (`'Over-Capacity'` spelt `overCapacity`). -/
inductive TicketStatus where
  | draft
  | printed
  | overCapacity
deriving DecidableEq, Repr

/-- The `WeighingTicket` interface.  `issueTimestamp` is the epoch number;
its value is opaque to `saveTicket`, which only copies it. -/
structure WeighingTicket where
  id : Option String
  invoiceId : String
  netWeightInvoice : ℚ
  truckId : String
  truckPlateNumber : String
  truckTareWeight : ℚ
  grossWeightCalculated : ℚ
  issueTimestamp : ℤ
  ticketStatus : TicketStatus
deriving DecidableEq, Repr

/-- `saveTicket`: spread the incoming ticket, assign
`id = "TKT-" + Date.now().toString().slice(-6)`, push the new record onto
the stored list and resolve with it.  `now` is the `Date.now()` reading at
save time; no other field is derived from it. -/
def saveTicket (ticket : WeighingTicket) (now : ℕ) (store : List WeighingTicket) :
    WeighingTicket × List WeighingTicket :=
  let newTicket := { ticket with id := some ("TKT-" ++ takeRightStr (toString now) 6) }
  (newTicket, store ++ [newTicket])

/-! ### Concrete test documents -/

/-- An `infQ` element with optional `tpMed` and `qCarga` children. -/
def infQOf (tp q : Option String) : XmlNode :=
  el "infQ" []
    ((match tp with | some s => [el "tpMed" [] [txt s]] | none => []) ++
      (match q with | some s => [el "qCarga" [] [txt s]] | none => []))

/-- Document with an *empty* `nCT` element and a populated `nNF` element. -/
def docCE7 : XmlNode :=
  el "#document" [] [el "root" [] [el "nCT" [] [], el "nNF" [] [txt "7"]]]

/-- Document with populated `nCT` and `nNF` elements (and no `cCT`). -/
def doc7ok : XmlNode :=
  el "#document" [] [el "root" [] [el "nCT" [] [txt "100"], el "nNF" [] [txt "200"]]]

/-- Document whose first `PESO REAL` entry has a present but empty `qCarga`,
and whose second has `qCarga = "123"`. -/
def docCE3 : XmlNode :=
  el "#document" [] [el "root" []
    [infQOf (some "PESO REAL") (some ""), infQOf (some "PESO REAL") (some "123")]]

/-- A quantity entry of another kind before the true weight entry. -/
def docOrder1 : XmlNode :=
  el "#document" [] [el "root" []
    [infQOf (some "PECAS") (some "20"), infQOf (some "peso real") (some "12345")]]

/-- The same two entries in the opposite sibling order. -/
def docOrder2 : XmlNode :=
  el "#document" [] [el "root" []
    [infQOf (some "peso real") (some "12345"), infQOf (some "PECAS") (some "20")]]

/-- Document where the `cteProc/CTe/.../dhEmi` chain exists but not as a
chain of *children* from the root (an extra `wrap` level), and a different
`dhEmi` element comes first in document order. -/
def docCE6 : XmlNode :=
  el "#document" [] [el "root" []
    [el "dhEmi" [] [txt "GENERIC-FIRST"],
     el "wrap" [] [el "cteProc" [] [el "CTe" [] [el "infCte" []
       [el "ide" [] [el "dhEmi" [] [txt "STRICT"]]]]]]]]

/-- Document with a valid invoice id, a derivable emission date, a derivable
plate, and a weight string (`"abc"`) that does not parse as a number. -/
def docCE4 : XmlNode :=
  el "#document" [] [el "root" []
    [el "nCT" [] [txt "77"],
     infQOf (some "PESO REAL") (some "abc"),
     el "ide" [] [el "dhEmi" [] [txt "2024-01-05T08:30:00"]],
     el "ObsCont" [("xCampo", "Placas")] [el "xTexto" [] [txt "ABC1D23"]]]]

/-- Document carrying a plate inside an `ObsCont` observation. -/
def docPlate : XmlNode :=
  el "#document" [] [el "root" []
    [el "ObsCont" [("xCampo", "Placas")] [el "xTexto" [] [txt "Placa: ABC1D23 e XYZ"]]]]

/-! ### Helper lemmas -/

/-- The strategy-1 loop is a first-match search: it returns the `qCarga` text
of the first `infQ` entry passing the guard. -/
theorem findPesoReal_eq_find (l : List XmlNode) :
    findPesoReal l = (l.find? pesoRealHit).bind qCargaTrim := by
  induction l with
  | nil => rfl
  | cons item rest ih =>
    by_cases h : pesoRealHit item = true
    · simp [findPesoReal, List.find?, h]
    · simp only [Bool.not_eq_true] at h
      simp [findPesoReal, List.find?, h, ih]

/-- A guard hit guarantees a truthy `qCarga` text. -/
theorem pesoRealHit_truthy {item : XmlNode} (h : pesoRealHit item = true) :
    optTruthy (qCargaTrim item) = true := by
  unfold pesoRealHit at h
  rw [Bool.and_eq_true] at h
  exact h.2

/-- The candidate-tag search is a first-match search over the tags whose
first occurrence has truthy text. -/
theorem getTagValue_eq_find (doc : XmlNode) (tags : List String) :
    getTagValue doc tags =
      ((tags.find? fun t => optTruthy (firstElemText doc t)).bind
        fun t => (firstElemText doc t).map trimStr) := by
  induction tags with
  | nil => rfl
  | cons tag rest ih =>
    rcases hh : (elemsByTag tag doc).head? with _ | e
    · have hp : optTruthy (firstElemText doc tag) = false := by
        simp [firstElemText, hh, optTruthy]
      simp [getTagValue, hh, List.find?_cons, hp, ih]
    · by_cases ht : textContent e = ""
      · have hp : optTruthy (firstElemText doc tag) = false := by
          simp [firstElemText, hh, ht, optTruthy]
        simp [getTagValue, hh, ht, List.find?_cons, hp, ih]
      · have hp : optTruthy (some (textContent e)) = true := by
          simp [optTruthy, ht]
        simp [getTagValue, hh, ht, List.find?_cons, hp, firstElemText]

/-- Rewriting each catalog entry's capacity field changes neither the guard
nor the identity of the truck `find` selects. -/
theorem autoSelect_capacity_independent (trucks : List Truck) (w : ℚ) (cap : Truck → ℚ) :
    (autoSelect (trucks.map fun t => { t with maxCapacity := cap t }) w).map Truck.truckId
      = (autoSelect trucks w).map Truck.truckId := by
  induction trucks with
  | nil => rfl
  | cons t rest ih =>
    by_cases h : (t.plateNumber == targetPlate w) = true
    · simp [autoSelect, List.find?, h]
    · simp only [Bool.not_eq_true] at h
      simpa [autoSelect, List.find?, h] using ih

/-! ### Claim theorems -/

/-- C1: for every extracted net weight `w > 0`, tare weight `t` (integers, as
the claim states) and every random draw `u ∈ [0, 1)` (so the variation factor
`0.998 + 0.004·u` lies in the claimed interval), the raw delta `w·(f − 1)` is
clamped to `[−20, 20]` and the rounded gross weight satisfies
`grossWeightCalculated − t ∈ [w − 20, w + 20]`; instantiating `w = 50000`
gives the claimed `[49980, 50020]` since `50000 ∓ 20 = 49980 / 50020`. -/
theorem C1_gross_weight_within_cap (w t : ℤ) (u : ℚ) (_hw : 0 < w)
    (_hu0 : 0 ≤ u) (_hu1 : u < 1) :
    w - 20 ≤ randomizedGrossWeight w t u - t ∧
      randomizedGrossWeight w t u - t ≤ w + 20 := by
  have hd1 : (-20 : ℚ) ≤ clampedDelta20 ((w : ℚ) * variationFactor u - w) :=
    le_max_left _ _
  have hd2 : clampedDelta20 ((w : ℚ) * variationFactor u - w) ≤ 20 :=
    max_le (by norm_num) (min_le_left _ _)
  simp only [randomizedGrossWeight, jsRound]
  constructor
  · have hlow : w + t - 20 ≤ ⌊(w : ℚ) + clampedDelta20 ((w : ℚ) * variationFactor u - w) + t + 1 / 2⌋ := by
      apply Int.le_floor.mpr
      push_cast
      linarith
    omega
  · have hhigh : ⌊(w : ℚ) + clampedDelta20 ((w : ℚ) * variationFactor u - w) + t + 1 / 2⌋ < w + t + 21 := by
      apply Int.floor_lt.mpr
      push_cast
      linarith
    omega

/-- C1 witness: at `w = 50000`, `t = 9900`, `u = 0` the gross weight minus
tare lies in `[50000 − 20, 50000 + 20] = [49980, 50020]`. -/
theorem C1_gross_weight_within_cap_witness :
    (50000 : ℤ) - 20 ≤ randomizedGrossWeight 50000 9900 0 - 9900 ∧
      randomizedGrossWeight 50000 9900 0 - 9900 ≤ 50000 + 20 :=
  C1_gross_weight_within_cap 50000 9900 0 (by decide) (le_refl 0) zero_lt_one

/-- C2 counterexample: the claim says one calendar day is added to the base
date also when the base is the current-time fallback, but `handleIssueTicket`
adds the day only inside the branch where the invoice date parsed.  With no
invoice date and current time 2024-01-01 10:00:00, the issue date stays on
day 1 (time overwritten by the draw), while adding one day to that base
would give day 2. -/
theorem C2_counterexample :
    computeIssueDT ⟨2024, 1, 1, 10, 0, 0, 0⟩ none 25970 = ⟨2024, 1, 1, 7, 12, 50, 0⟩ ∧
      addOneDay ⟨2024, 1, 1, 10, 0, 0, 0⟩ = ⟨2024, 1, 2, 10, 0, 0, 0⟩ := by
  decide

/-- C2 amended: for a random draw `r ∈ [25970, 56750]` the issue date-time
carries exactly `r` as its time of day (hence within [07:12:50, 15:45:50])
with milliseconds zeroed; one calendar day is added to the parsed invoice
date *only* when the invoice date string is truthy and parses — in every
other case (invoice date missing, empty, or truthy but unparseable) the
current time's date is kept unchanged; and for invoice date
`"2024-01-01T10:00:00"` the date part is always 2024-01-02. -/
theorem C2_issue_timestamp (now : DateTime) (inv : Option String) (r : ℕ)
    (h1 : startTotalSeconds ≤ r) (h2 : r ≤ endTotalSeconds) :
    (todSeconds (computeIssueDT now inv r) = r ∧
      startTotalSeconds ≤ todSeconds (computeIssueDT now inv r) ∧
      todSeconds (computeIssueDT now inv r) ≤ endTotalSeconds ∧
      (computeIssueDT now inv r).ms = 0) ∧
    (∀ s d, inv = some s → s ≠ "" → jsDateParse s = some d →
      (computeIssueDT now inv r).year = (addOneDay d).year ∧
        (computeIssueDT now inv r).month = (addOneDay d).month ∧
        (computeIssueDT now inv r).day = (addOneDay d).day) ∧
    (inv = none →
      (computeIssueDT now inv r).year = now.year ∧
        (computeIssueDT now inv r).month = now.month ∧
        (computeIssueDT now inv r).day = now.day) ∧
    (inv = some "" →
      (computeIssueDT now inv r).year = now.year ∧
        (computeIssueDT now inv r).month = now.month ∧
        (computeIssueDT now inv r).day = now.day) ∧
    (∀ s, inv = some s → jsDateParse s = none →
      (computeIssueDT now inv r).year = now.year ∧
        (computeIssueDT now inv r).month = now.month ∧
        (computeIssueDT now inv r).day = now.day) ∧
    ((computeIssueDT now (some "2024-01-01T10:00:00") r).year = 2024 ∧
      (computeIssueDT now (some "2024-01-01T10:00:00") r).month = 1 ∧
      (computeIssueDT now (some "2024-01-01T10:00:00") r).day = 2) := by
  refine ⟨⟨?_, ?_, ?_, ?_⟩, ?_, ?_, ?_, ?_, ?_⟩
  · simp only [computeIssueDT, setTimeHMS, todSeconds]
    omega
  · simp only [computeIssueDT, setTimeHMS, todSeconds]
    unfold startTotalSeconds at h1 ⊢
    omega
  · simp only [computeIssueDT, setTimeHMS, todSeconds]
    unfold endTotalSeconds at h2 ⊢
    omega
  · simp [computeIssueDT, setTimeHMS]
  · intro s d hs hne hp
    have hsne : (s == "") = false := beq_eq_false_iff_ne.mpr hne
    simp [computeIssueDT, setTimeHMS, hs, hp, optTruthy, hsne]
  · intro hnone
    simp [computeIssueDT, setTimeHMS, hnone, optTruthy]
  · intro hempty
    simp [computeIssueDT, setTimeHMS, hempty, optTruthy]
  · intro s hs hnoparse
    by_cases hne : s = ""
    · simp [computeIssueDT, setTimeHMS, hs, hne, optTruthy]
    · have hsne : (s == "") = false := beq_eq_false_iff_ne.mpr hne
      simp [computeIssueDT, setTimeHMS, hs, hnoparse, optTruthy, hsne]
  · exact ⟨rfl, rfl, rfl⟩

/-- C2 witness: at current time 2024-06-06 00:00:00, a parsed invoice date
and the draw `r = 30000`, the time of day is exactly the draw. -/
theorem C2_issue_timestamp_witness :
    todSeconds (computeIssueDT ⟨2024, 6, 6, 0, 0, 0, 0⟩ (some "2024-01-01T10:00:00") 30000) = 30000 :=
  (C2_issue_timestamp ⟨2024, 6, 6, 0, 0, 0, 0⟩ (some "2024-01-01T10:00:00") 30000
    (by decide) (by decide)).1.1

/-- C3 counterexample: in `docCE3` the first `PESO REAL` entry has a
*present* `qCarga` child with empty text; the claim says that entry supplies
the weight string (so the extraction would yield `""`), but the code's guard
requires truthy text and takes `"123"` from the second entry. -/
theorem C3_counterexample :
    netWeightStringOf docCE3 = some "123" ∧ netWeightStringClaim docCE3 = some "" ∧
      netWeightStringOf docCE3 ≠ netWeightStringClaim docCE3 := by
  decide

/-- C3 amended: the contextual strategy takes, over the `infQ` elements in
document order, the first whose `tpMed` (trimmed, upper-cased) equals
`"PESO REAL"` and whose `qCarga` child has *non-empty trimmed text* (not mere
presence), regardless of sibling order; only when no `infQ` passes that guard
does the generic fallback over the ordered tag list run. -/
theorem C3_net_weight_strategy (doc : XmlNode) :
    (∀ item, (elemsByTag "infQ" doc).find? pesoRealHit = some item →
      netWeightStringOf doc = qCargaTrim item) ∧
    ((elemsByTag "infQ" doc).find? pesoRealHit = none →
      netWeightStringOf doc = getTagValue doc weightTags) ∧
    netWeightStringOf docOrder1 = some "12345" ∧
    netWeightStringOf docOrder2 = some "12345" := by
  refine ⟨?_, ?_, by decide, by decide⟩
  · intro item hfind
    have h1 : findPesoReal (elemsByTag "infQ" doc) = qCargaTrim item := by
      rw [findPesoReal_eq_find, hfind]
      rfl
    have htruthy := pesoRealHit_truthy (List.find?_some hfind)
    simp [netWeightStringOf, h1, htruthy]
  · intro hfind
    have h1 : findPesoReal (elemsByTag "infQ" doc) = none := by
      rw [findPesoReal_eq_find, hfind]
      rfl
    simp [netWeightStringOf, h1, optTruthy]

/-- C3 witness: on `docOrder1` the first-match search selects the
`peso real` entry and the extraction returns its `qCarga` text. -/
theorem C3_net_weight_strategy_witness :
    netWeightStringOf docOrder1 = qCargaTrim (infQOf (some "peso real") (some "12345")) :=
  (C3_net_weight_strategy docOrder1).1 (infQOf (some "peso real") (some "12345")) (by rfl)

/-- C4 counterexample: `docCE4` has invoice id `"77"`, a derivable emission
date, a detectable plate, and its filename carries a date, but its weight
string `"abc"` is not numeric; in that branch the code returns only
`invoiceId`, a null `netWeight` and the error — `invoiceDate`,
`extractedPlate` and `filenameDate` are *not* carried, contradicting the
claim that derivable fields remain populated. -/
theorem C4_counterexample :
    (parseInvoiceXml docCE4 "invoice_2024-03-15.xml").invoiceId = some "77" ∧
      (parseInvoiceXml docCE4 "invoice_2024-03-15.xml").netWeight = none ∧
      (parseInvoiceXml docCE4 "invoice_2024-03-15.xml").error =
        some "Peso Líquido não é um número válido." ∧
      (parseInvoiceXml docCE4 "invoice_2024-03-15.xml").invoiceDate = none ∧
      invoiceDateOf docCE4 = some "2024-01-05 08:30" ∧
      (parseInvoiceXml docCE4 "invoice_2024-03-15.xml").extractedPlate = none ∧
      extractPlateOf docCE4 = some "ABC1D23" ∧
      (parseInvoiceXml docCE4 "invoice_2024-03-15.xml").filenameDate = none ∧
      filenameDateOf "invoice_2024-03-15.xml" = some "2024-03-15 12:00" := by
  decide

/-- C4 amended: whenever the invoice id and the weight string are both found
(truthy) but the weight string does not parse as a number, the result carries
exactly the invoice id, a null net weight and the fixed error message, while
`invoiceDate`, `extractedPlate` and `filenameDate` are left unset even when
derivable (only the missing-field branch preserves them). -/
theorem C4_weight_not_numeric (doc : XmlNode) (filename : String)
    (hid : optTruthy (invoiceIdOf doc) = true)
    (hw : optTruthy (netWeightStringOf doc) = true)
    (hnan : jsParseFloat ((netWeightStringOf doc).getD "") = none) :
    parseInvoiceXml doc filename =
      ⟨invoiceIdOf doc, none, none, none, none,
        some "Peso Líquido não é um número válido."⟩ := by
  simp [parseInvoiceXml, hid, hw, hnan]

/-- C4 witness: the amended statement evaluated on `docCE4`. -/
theorem C4_weight_not_numeric_witness :
    parseInvoiceXml docCE4 "invoice_2024-03-15.xml" =
      ⟨invoiceIdOf docCE4, none, none, none, none,
        some "Peso Líquido não é um número válido."⟩ :=
  C4_weight_not_numeric docCE4 "invoice_2024-03-15.xml" (by decide) (by decide) (by decide)

/-- C5 counterexample: the claim says `"ABC12345"` does not match, but the
regex search is unanchored and finds the 7-character match `"ABC1234"`. -/
theorem C5_counterexample :
    jsMatchPlate "ABC12345" = some "ABC1234" := by
  decide

/-- C5 amended: the plate matcher (3 uppercase letters, 1 digit,
1 alphanumeric, 2 digits, searched unanchored in the `xTexto` text of
`ObsCont` elements whose `xCampo` contains `"PLACA"`) matches `"ABC1D23"`,
does not match `"AB12345"`, and *does* match inside `"ABC12345"` (yielding
`"ABC1234"`); on a document carrying `"Placa: ABC1D23 e XYZ"` the extraction
returns `"ABC1D23"`. -/
theorem C5_plate_matcher :
    jsMatchPlate "ABC1D23" = some "ABC1D23" ∧
      jsMatchPlate "AB12345" = none ∧
      jsMatchPlate "ABC12345" = some "ABC1234" ∧
      extractPlateOf docPlate = some "ABC1D23" := by
  decide

/-- C6 counterexample: each strict-path step of the code takes the first
*descendant* with the segment's tag, not the first *child* as the claim
states; on `docCE6` the code follows the nested `cteProc` chain and returns
`"STRICT"`, while the claim's child-based descent fails both strict paths and
the generic search would return the document-first `"GENERIC-FIRST"`. -/
theorem C6_counterexample :
    invoiceDateRawOf docCE6 = some "STRICT" ∧
      invoiceDateRawClaim docCE6 = some "GENERIC-FIRST" ∧
      invoiceDateRawOf docCE6 ≠ invoiceDateRawClaim docCE6 := by
  decide

/-- C6 amended: date extraction tries the strict path
`/cteProc/CTe/infCte/ide/dhEmi`, then `/CTe/infCte/ide/dhEmi`, then the
generic candidate-tag search — where each strict-path step descends to the
first *descendant* (document order) bearing the next segment's tag and the
whole path fails if a segment is absent; a found raw value is reformatted to
`YYYY-MM-DD HH:MM` when it parses as a date-time and passed through
unchanged otherwise. -/
theorem C6_invoice_date_strategy (doc : XmlNode) (raw : String) :
    (∀ v, getTagValueByPath doc "/cteProc/CTe/infCte/ide/dhEmi" = some v →
      invoiceDateRawOf doc = some v) ∧
    (getTagValueByPath doc "/cteProc/CTe/infCte/ide/dhEmi" = none →
      ∀ v, getTagValueByPath doc "/CTe/infCte/ide/dhEmi" = some v →
        invoiceDateRawOf doc = some v) ∧
    (getTagValueByPath doc "/cteProc/CTe/infCte/ide/dhEmi" = none →
      getTagValueByPath doc "/CTe/infCte/ide/dhEmi" = none →
        invoiceDateRawOf doc = getTagValue doc dateTags) ∧
    (∀ p rest cur, descendPath cur (p :: rest) =
      ((elemsByTag p cur).head?).bind fun e => descendPath e rest) ∧
    (∀ d, jsDateParse raw = some d → formatInvoiceDate raw = fmtYMDHM d) ∧
    (jsDateParse raw = none → formatInvoiceDate raw = raw) := by
  refine ⟨?_, ?_, ?_, ?_, ?_, ?_⟩
  · intro v h
    simp [invoiceDateRawOf, h]
  · intro h1 v h2
    simp [invoiceDateRawOf, h1, h2]
  · intro h1 h2
    simp [invoiceDateRawOf, h1, h2]
  · intro p rest cur
    rcases hh : (elemsByTag p cur).head? with _ | e <;> simp [descendPath, hh]
  · intro d h
    simp [formatInvoiceDate, h]
  · intro h
    simp [formatInvoiceDate, h]

/-- C6 witness: on `docCE6` the first strict path succeeds and wins, and a
parseable raw value is reformatted. -/
theorem C6_invoice_date_strategy_witness :
    invoiceDateRawOf docCE6 = some "STRICT" ∧
      formatInvoiceDate "2024-01-05T08:30:00" = fmtYMDHM ⟨2024, 1, 5, 8, 30, 0, 0⟩ :=
  ⟨(C6_invoice_date_strategy docCE6 "2024-01-05T08:30:00").1 "STRICT" (by decide),
   (C6_invoice_date_strategy docCE6 "2024-01-05T08:30:00").2.2.2.2.1
     ⟨2024, 1, 5, 8, 30, 0, 0⟩ (by decide)⟩

/-- C7 counterexample: `docCE7` contains both `nCT` and `nNF`, yet the id
resolves from `nNF`: the code skips a candidate whose first occurrence has
empty text, while the claim says any matching element wins (which would
yield `nCT`'s empty text). -/
theorem C7_counterexample :
    invoiceIdOf docCE7 = some "7" ∧ getTagValueClaim docCE7 idTags = some "" ∧
      invoiceIdOf docCE7 ≠ getTagValueClaim docCE7 idTags := by
  decide

/-- C7 amended: the ordered candidate search selects the first tag whose
first occurrence has *non-empty* text content, yielding its trimmed text; in
particular a document whose `cCT` is absent or empty-texted and whose `nCT`
first occurrence has non-empty text resolves `invoiceId` from `nCT` (never
from the later `nNF`), as on `doc7ok`. -/
theorem C7_invoice_id_selection (doc : XmlNode) :
    (∀ tags, getTagValue doc tags =
      ((tags.find? fun t => optTruthy (firstElemText doc t)).bind
        fun t => (firstElemText doc t).map trimStr)) ∧
    (optTruthy (firstElemText doc "cCT") = false →
      optTruthy (firstElemText doc "nCT") = true →
        invoiceIdOf doc = (firstElemText doc "nCT").map trimStr) ∧
    invoiceIdOf doc7ok = some "100" := by
  refine ⟨getTagValue_eq_find doc, ?_, by decide⟩
  intro h1 h2
  rw [invoiceIdOf, getTagValue_eq_find doc idTags]
  simp [idTags, List.find?_cons, h1, h2]

/-- C7 witness: on `doc7ok` (no `cCT`, non-empty `nCT`) the id is `nCT`'s
trimmed text. -/
theorem C7_invoice_id_selection_witness :
    invoiceIdOf doc7ok = (firstElemText doc7ok "nCT").map trimStr :=
  (C7_invoice_id_selection doc7ok).2.1 (by decide) (by decide)

/-- C8: the filename date extractor gives the year-first pattern priority,
falls back to the day-first pattern, renders a match as `YYYY-MM-DD 12:00`
(noon fixed), returns null when neither pattern matches, and maps the two
claimed example filenames to `"2024-03-15 12:00"`. -/
theorem C8_filename_date (f : String) :
    (∀ y m d, searchY f.data = some (y, m, d) →
      filenameDateOf f = some (y ++ "-" ++ m ++ "-" ++ d ++ " 12:00")) ∧
    (searchY f.data = none → ∀ d m y, searchD f.data = some (d, m, y) →
      filenameDateOf f = some (y ++ "-" ++ m ++ "-" ++ d ++ " 12:00")) ∧
    (searchY f.data = none → searchD f.data = none → filenameDateOf f = none) ∧
    filenameDateOf "invoice_2024-03-15_final.xml" = some "2024-03-15 12:00" ∧
    filenameDateOf "invoice_15-03-2024.xml" = some "2024-03-15 12:00" := by
  refine ⟨?_, ?_, ?_, by decide, by decide⟩
  · intro y m d h
    simp [filenameDateOf, h]
  · intro h1 d m y h2
    simp [filenameDateOf, h1, h2]
  · intro h1 h2
    simp [filenameDateOf, h1, h2]

/-- C8 witness: a filename without a date substring yields null. -/
theorem C8_filename_date_witness :
    filenameDateOf "report.xml" = none :=
  (C8_filename_date "report.xml").2.2.1 (by decide) (by decide)

/-- C9: the auto-selector's category is `"TRUCK"` for `netWeight ≤ 15000`
and `"CARRETA"` above (so 15000 selects TRUCK and 15000.01 CARRETA), is
independent of every vehicle's capacity field, and a catalog miss writes an
informational message with no selection and no upload error. -/
theorem C9_vehicle_auto_selection (w : ℚ) (trucks : List Truck) (cap : Truck → ℚ) :
    (w ≤ 15000 → targetPlate w = "TRUCK") ∧
    (15000 < w → targetPlate w = "CARRETA") ∧
    targetPlate 15000 = "TRUCK" ∧
    targetPlate (15000 + 1 / 100) = "CARRETA" ∧
    ((autoSelect (trucks.map fun t => { t with maxCapacity := cap t }) w).map Truck.truckId
      = (autoSelect trucks w).map Truck.truckId) ∧
    (autoSelect trucks w = none →
      (autoSelectState trucks w).uploadError = none ∧
        (autoSelectState trucks w).selectedTruckId = none ∧
        ((autoSelectState trucks w).feedbackMessage).isSome = true) := by
  refine ⟨?_, ?_, ?_, ?_, autoSelect_capacity_independent trucks w cap, ?_⟩
  · intro h
    rw [targetPlate, if_pos h]
  · intro h
    rw [targetPlate, if_neg (not_le.mpr h)]
  · rw [targetPlate, if_pos le_rfl]
  · rw [targetPlate, if_neg (by norm_num)]
  · intro h
    simp [autoSelectState, h]

/-- C9 witness: the boundary weight selects TRUCK, a heavier weight selects
CARRETA, and on an empty catalog the miss is informational (no error). -/
theorem C9_vehicle_auto_selection_witness :
    targetPlate 15000 = "TRUCK" ∧ targetPlate 20000 = "CARRETA" ∧
      (autoSelectState [] 20000).uploadError = none :=
  ⟨(C9_vehicle_auto_selection 15000 [] (fun _ => 0)).1 le_rfl,
   (C9_vehicle_auto_selection 20000 [] (fun _ => 0)).2.1 (by norm_num),
   ((C9_vehicle_auto_selection 20000 [] (fun _ => 0)).2.2.2.2.2 rfl).1⟩

/-- C10: `saveTicket` returns (and stores) a ticket agreeing with its input
on every field — invoiceId, netWeightInvoice, truckId, truckPlateNumber,
truckTareWeight, grossWeightCalculated, issueTimestamp, ticketStatus —
differing only in the newly assigned id; in particular `issueTimestamp` is
copied, never replaced by the save-time clock reading `now`. -/
theorem C10_save_ticket_frame (t : WeighingTicket) (now : ℕ) (store : List WeighingTicket) :
    (saveTicket t now store).1.invoiceId = t.invoiceId ∧
    (saveTicket t now store).1.netWeightInvoice = t.netWeightInvoice ∧
    (saveTicket t now store).1.truckId = t.truckId ∧
    (saveTicket t now store).1.truckPlateNumber = t.truckPlateNumber ∧
    (saveTicket t now store).1.truckTareWeight = t.truckTareWeight ∧
    (saveTicket t now store).1.grossWeightCalculated = t.grossWeightCalculated ∧
    (saveTicket t now store).1.issueTimestamp = t.issueTimestamp ∧
    (saveTicket t now store).1.ticketStatus = t.ticketStatus ∧
    (saveTicket t now store).1.id = some ("TKT-" ++ takeRightStr (toString now) 6) ∧
    (saveTicket t now store).2 = store ++ [(saveTicket t now store).1] :=
  ⟨rfl, rfl, rfl, rfl, rfl, rfl, rfl, rfl, rfl, rfl⟩

end ScaleTicketPro
